import Mathlib

/-!
Verification of the UGC_ImageMaker media-production backend.

The definitions below are a shallow embedding of the Python source:
  - `src/img_2_vid/backend/tools.py`  (capability tools and both polling loops)
  - `src/img_2_vid/backend/main.py`   (pipeline sequencer and job registry)

External HTTP responses are modelled as explicit data (a status code plus the
JSON fields the code reads); the polling loops are modelled by structural
recursion on the remaining attempt budget, exactly mirroring the Python
`for attempt in range(max_attempts)` loops.
-/

/-! ## Shared Python-semantics helpers -/

/-- Python truthiness of an optional string: `None` and `""` are falsy,
every other string is truthy.  Mirrors `if video_url:` checks in the source. -/
def truthy : Option String → Bool
  | none => false
  | some s => !(s == "")

/-- Python `a or b` on optional strings: returns `a` when `a` is truthy,
otherwise `b` (even when `b` is falsy).  Mirrors
`status_data.get("video_url") or status_data.get("output_url")`. -/
def pyOr (a b : Option String) : Option String :=
  if truthy a then a else b

/-- Python `str.upper()` restricted to the ASCII uppercasing the status
tokens use.  Mirrors `result.get("status", "").upper()` in
`apply_lip_sync_tool` (tools.py line 432). -/
def pyUpper (s : String) : String :=
  String.mk (s.data.map Char.toUpper)

/-! ## Generic polling loop (tools.py lines 204-240 and 412-451)

Both pollers have the same shape: `for attempt in range(max_attempts):`
sleep 10 seconds, issue one status query, then either `continue`
(transport error, non-200 status code, non-terminal status, or terminal
success without a usable result field), `break` with a result URL, or
raise with a failure message.  After the loop, a missing URL raises the
timeout error.  We model one iteration's decision as
`Option PollOutcome`: `none` means the loop continues to the next
attempt. -/

/-- Observable events of one poller run: the `time.sleep(10)` call and the
`requests.get` status query of each iteration. -/
inductive PEvent
  | sleep (secs : Nat)
  | query
deriving DecidableEq, Repr

/-- Result of a polling loop: a result URL, a terminal failure message, or
timeout (attempt budget exhausted without obtaining a result URL). -/
inductive PollOutcome
  | success (url : String)
  | failed (msg : String)
  | timeout
deriving DecidableEq, Repr

/-- Number of status queries a trace contains. -/
def queryCount (l : List PEvent) : Nat :=
  (l.filter fun e => match e with | PEvent.query => true | _ => false).length

/-- Checks that a trace consists of (sleep, query) pairs, i.e. each
iteration sleeps the poll interval first and then issues its status query. -/
def sleepsFirst : List PEvent → Bool
  | [] => true
  | PEvent.sleep _ :: PEvent.query :: t => sleepsFirst t
  | _ => false

/-- The polling loop: `stepSeq n` is the decision produced by the response
to the `n`-th status query (`none` = the Python `continue` paths).  The
fuel argument is the remaining attempt budget; attempts exhausted without
a break/raise yield `PollOutcome.timeout`, matching the post-loop
`if not video_url: raise ... timeout` in both tools. -/
def pollAux (stepSeq : Nat → Option PollOutcome) : Nat → Nat → List PEvent × PollOutcome
  | _, 0 => ([], PollOutcome.timeout)
  | a, k+1 =>
    match stepSeq a with
    | some o => ([PEvent.sleep 10, PEvent.query], o)
    | none =>
      let r := pollAux stepSeq (a+1) k
      (PEvent.sleep 10 :: PEvent.query :: r.1, r.2)

/-! ## Video-clip poller (`generate_video_clip_tool`, tools.py 204-240) -/

/-- JSON fields of one video status response that the code reads. -/
structure VBody where
  status : Option String
  video_url : Option String
  output_url : Option String
  error : Option String
deriving DecidableEq, Repr

/-- One response to a video status query: a transport error
(`requests.exceptions.RequestException`, also covering JSON decode
failures, all caught and `continue`d) or an HTTP response with a status
code and body. -/
inductive VResp
  | transport
  | resp (code : Nat) (body : VBody)
deriving DecidableEq, Repr

/-- Decision taken by one iteration of the video polling loop
(tools.py lines 211-237), as a function of the response. -/
def vstep (r : VResp) : Option PollOutcome :=
  match r with
  | VResp.transport => none
  | VResp.resp code body =>
    if code ≠ 200 then none
    else if body.status = some "complete" ∨ body.status = some "completed" then
      let url := pyOr body.video_url body.output_url
      if truthy url then some (PollOutcome.success (url.getD "")) else none
    else if body.status = some "failed" ∨ body.status = some "error" then
      some (PollOutcome.failed ("Video generation failed: " ++ body.error.getD "Unknown error"))
    else none

/-- The full video polling loop: `max_attempts = 120` (tools.py line 206). -/
def videoPoll (rs : Nat → VResp) : List PEvent × PollOutcome :=
  pollAux (fun n => vstep (rs n)) 0 120

/-- Post-loop behaviour of `generate_video_clip_tool`: on success the
result URL is downloaded (modelled by `dl`), a terminal failure's
exception propagates, and a missing URL raises the timeout error
(tools.py lines 239-247). -/
def generate_video_clip_tool (rs : Nat → VResp) (dl : String → Except String String)
    (clip_index : Nat) : Except String String :=
  match (videoPoll rs).2 with
  | PollOutcome.success u => dl u
  | PollOutcome.failed m => Except.error m
  | PollOutcome.timeout =>
      Except.error ("Video generation timeout for clip " ++ toString clip_index)

/-! ## Lip-sync poller (`apply_lip_sync_tool`, tools.py 412-451) -/

/-- JSON fields of one lip-sync status response that the code reads. -/
structure LBody where
  status : Option String
  output_url : Option String
  outputUrl : Option String
  video_url : Option String
  error : Option String
deriving DecidableEq, Repr

/-- One response to a lip-sync status query. -/
inductive LResp
  | transport
  | resp (code : Nat) (body : LBody)
deriving DecidableEq, Repr

/-- Decision taken by one iteration of the lip-sync polling loop
(tools.py lines 420-448): the status token is uppercased, matched against
the terminal vocabulary, success extracts `output_url` / `outputUrl` /
`video_url` in that order, and other terminal statuses raise the
upstream error message. -/
def lstep (r : LResp) : Option PollOutcome :=
  match r with
  | LResp.transport => none
  | LResp.resp code body =>
    if code ≠ 200 then none
    else
      let status := pyUpper (body.status.getD "")
      if status ∈ (["COMPLETED", "COMPLETE", "FAILED", "REJECTED", "CANCELLED", "ERROR"] : List String) then
        if status = "COMPLETED" ∨ status = "COMPLETE" then
          let url := pyOr (pyOr body.output_url body.outputUrl) body.video_url
          if truthy url then some (PollOutcome.success (url.getD "")) else none
        else
          some (PollOutcome.failed (body.error.getD ("Lipsync failed with status: " ++ status)))
      else none

/-- The full lip-sync polling loop: `max_attempts = 10` (tools.py line 416). -/
def lipsyncPoll (rs : Nat → LResp) : List PEvent × PollOutcome :=
  pollAux (fun n => lstep (rs n)) 0 10

/-- Post-loop behaviour of `apply_lip_sync_tool` (tools.py lines 450-470). -/
def apply_lip_sync_tool (rs : Nat → LResp) (dl : String → Except String String) :
    Except String String :=
  match (lipsyncPoll rs).2 with
  | PollOutcome.success u => dl u
  | PollOutcome.failed m => Except.error m
  | PollOutcome.timeout =>
      Except.error "Lipsync timeout - job did not complete in time"

/-! ## Clip-count computation (`generate_audio_tool`, tools.py 142-157) -/

/-- `CLIP_DURATION = 7` (tools.py line 19). -/
def CLIP_DURATION : ℚ := 7

/-- `required_clips = math.ceil(duration / CLIP_DURATION)` (tools.py line
149); the measured audio duration is modelled as a rational. -/
def required_clips (duration : ℚ) : ℤ :=
  ⌈duration / CLIP_DURATION⌉

/-! ## Segment selection (`run_video_production`, main.py 203-210) -/

/-- Segment chosen for clip index `i` of `N` (0-based loop variable of
`for i in range(required_clips)`): `segments[0]` for `i == 0`,
`segments[-1]` for `i == required_clips - 1`, `segments[1]` otherwise. -/
def select_segment {α : Type} (segments : List α) (N i : Nat) : Option α :=
  if i = 0 then segments[0]?
  else if i = N - 1 then segments.getLast?
  else segments[1]?

/-! ## Assembly stage (`assemble_video_tool`, tools.py 280-349) -/

/-- The two ffmpeg invocations `assemble_video_tool` makes: clip
concatenation (tools.py 304-316) and the audio merge (tools.py 329-346). -/
inductive AsmCall
  | concat
  | mux
deriving DecidableEq, Repr

/-- `assemble_video_tool`, over a file-system snapshot `fs` (whether a
path exists on disk) and abstract outcomes for the two ffmpeg steps.
Returns the ffmpeg invocations made, in order, together with the result.
Clip paths are existence-checked one by one before any ffmpeg call
(tools.py 296-298); the audio path is checked between the concatenation
and the audio merge (tools.py 323-324). -/
def assemble_video_tool (fs : String → Bool) (clip_paths : List String)
    (audio_path : String) (concatRes : Except String Unit)
    (muxRes : Except String Unit) : List AsmCall × Except String String :=
  match clip_paths.find? (fun p => !fs p) with
  | some p => ([], Except.error ("Clip not found: " ++ p))
  | none =>
    match concatRes with
    | Except.error m =>
        ([AsmCall.concat], Except.error ("FFmpeg error during concatenation: " ++ m))
    | Except.ok _ =>
      if !fs audio_path then
        ([AsmCall.concat], Except.error ("Audio file not found: " ++ audio_path))
      else
        match muxRes with
        | Except.error m =>
            ([AsmCall.concat, AsmCall.mux],
             Except.error ("FFmpeg error during audio merge: " ++ m))
        | Except.ok _ =>
            ([AsmCall.concat, AsmCall.mux],
             Except.ok "temp_assets/raw_video_with_audio.mp4")

/-! ## Job registry and pipeline sequencer (main.py 180-338) -/

/-- The summary stored in `jobs[job_id]["result"]` on completion
(main.py 298-302). -/
structure ProdResult where
  final_video_path : String
  duration : ℚ
  clips_generated : Nat
deriving DecidableEq, Repr

/-- One record of the in-memory `jobs` table (main.py 322-328). -/
structure JobRecord where
  job_id : String
  status : String
  progress : String
  result : Option ProdResult
  error : Option String
deriving DecidableEq, Repr

/-- The record `start_production` stores at submission (main.py 322-328). -/
def initJobRecord (job_id : String) : JobRecord :=
  { job_id := job_id
    status := "started"
    progress := "Initializing..."
    result := none
    error := none }

/-- `start_production` (main.py 310-338): registers the fresh record under
the generated id (modelled as an explicit argument) and returns the id
immediately; the pipeline itself runs out-of-band. -/
def start_production (jobs : String → Option JobRecord) (job_id : String) :
    (String → Option JobRecord) × String :=
  (fun k => if k = job_id then some (initJobRecord job_id) else jobs k, job_id)

/-- Outcome of one stage-level call driven by the sequencer: the produced
path, or the message of the exception the stage raised. -/
inductive StageResult
  | ok (out : String)
  | err (msg : String)
deriving DecidableEq, Repr

/-- One in-place mutation of the job record performed by
`run_video_production` (each `jobs[job_id][...] = ...` statement). -/
inductive Event
  | setStatus (s : String)
  | setProgress (p : String)
  | setResult (r : ProdResult)
  | setError (e : String)
deriving DecidableEq, Repr

/-- One stage-level external call issued by `run_video_production`:
generation of clip `i` (0-based loop index), the assembly call, or the
lip-sync call. -/
inductive Call
  | clip (i : Nat)
  | assembly
  | lipsync
deriving DecidableEq, Repr

/-- The clip-generation loop (main.py 203-237), iterating indices
`i, i+1, ...` with `k` iterations left out of `N` total: emits the
per-clip progress updates, records the clip calls in order, and returns
the clip paths, or the first raised exception's message.  On a clip
failure the exception aborts the loop at once. -/
def clipsLoopAux (clipRes : Nat → StageResult) (N : Nat) :
    Nat → Nat → List Event × List Call × Except String (List String)
  | _, 0 => ([], [], Except.ok [])
  | i, k+1 =>
    match clipRes i with
    | StageResult.err m => ([], [Call.clip i], Except.error m)
    | StageResult.ok p =>
      let r := clipsLoopAux clipRes N (i+1) k
      (Event.setProgress ("Generated clip " ++ toString (i+1) ++ "/" ++ toString N) :: r.1,
       Call.clip i :: r.2.1,
       match r.2.2 with
       | Except.ok ps => Except.ok (p :: ps)
       | Except.error m => Except.error m)

/-- Record writes entering the clip stage (main.py 190-191). -/
def prodHead : List Event :=
  [Event.setStatus "generating_videos", Event.setProgress "Generating video clips..."]

/-- Record writes entering the assembly stage (main.py 241-242). -/
def asmHead : List Event :=
  [Event.setStatus "assembling", Event.setProgress "Assembling video with audio..."]

/-- Record writes entering the lip-sync stage (main.py 268-269). -/
def lipHead : List Event :=
  [Event.setStatus "lipsyncing", Event.setProgress "Applying lip synchronization..."]

/-- `run_video_production` (main.py 180-307): drives the clip loop, the
assembly call and the lip-sync call in order; any stage exception is
caught by the surrounding `except` which writes `status = "failed"` and
`error = str(e)` (main.py 304-307); on success the terminal block writes
`status = "completed"`, the final progress text and the result summary
(main.py 296-302).  Returns the ordered record-write events and the
ordered stage calls. -/
def run_video_production (N : Nat) (clipRes : Nat → StageResult)
    (asmRes lipRes : StageResult) (d : ℚ) : List Event × List Call :=
  let c := clipsLoopAux clipRes N 0 N
  match c.2.2 with
  | Except.error m =>
      (prodHead ++ c.1 ++ [Event.setStatus "failed", Event.setError m], c.2.1)
  | Except.ok paths =>
    match asmRes with
    | StageResult.err m =>
        (prodHead ++ c.1 ++ asmHead ++ [Event.setStatus "failed", Event.setError m],
         c.2.1 ++ [Call.assembly])
    | StageResult.ok _ =>
      match lipRes with
      | StageResult.err m =>
          (prodHead ++ c.1 ++ asmHead ++ lipHead ++
             [Event.setStatus "failed", Event.setError m],
           c.2.1 ++ [Call.assembly, Call.lipsync])
      | StageResult.ok fv =>
          (prodHead ++ c.1 ++ asmHead ++ lipHead ++
             [Event.setStatus "completed",
              Event.setProgress "Video production complete!",
              Event.setResult ⟨fv, d, paths.length⟩],
           c.2.1 ++ [Call.assembly, Call.lipsync])

/-- Applying one record write. -/
def applyEvent (r : JobRecord) : Event → JobRecord
  | Event.setStatus s => { r with status := s }
  | Event.setProgress p => { r with progress := p }
  | Event.setResult res => { r with result := some res }
  | Event.setError e => { r with error := some e }

/-- The job record after the sequencer has performed all its writes,
starting from the record `start_production` created. -/
def jobAfter (job_id : String) (evs : List Event) : JobRecord :=
  evs.foldl applyEvent (initJobRecord job_id)

/-- Projection of a write event onto the `status` field. -/
def statusOf : Event → Option String
  | Event.setStatus s => some s
  | _ => none

/-- The successive values of the `status` field of a job: `"started"` at
creation, then each `setStatus` write of the sequencer in order. -/
def statusTrace (evs : List Event) : List String :=
  "started" :: evs.filterMap statusOf

/-- Position of a status value in the documented stage order. -/
def statusRank (s : String) : Nat :=
  if s = "started" then 0
  else if s = "generating_videos" then 1
  else if s = "assembling" then 2
  else if s = "lipsyncing" then 3
  else if s = "completed" then 4
  else 5

/-- Whether a status value is terminal. -/
def isTerminal (s : String) : Bool :=
  s == "completed" || s == "failed"

/-- Checks that a status sequence advances strictly through the stage
order and that no value follows a terminal one. -/
def monotoneStatuses : List String → Bool
  | [] => true
  | [_] => true
  | a :: b :: t =>
      decide (statusRank a < statusRank b) && !isTerminal a && monotoneStatuses (b :: t)

/-- The record writes performed strictly after the write that first sets a
terminal status, when such a write exists. -/
def tailAfterTerminal : List Event → Option (List Event)
  | [] => none
  | Event.setStatus s :: t => if isTerminal s then some t else tailAfterTerminal t
  | _ :: t => tailAfterTerminal t

/-- True when the record is mutated again strictly after the write that
first sets a terminal status. -/
def mutatedAfterTerminal (evs : List Event) : Bool :=
  match tailAfterTerminal evs with
  | some tl => !tl.isEmpty
  | none => false

/-! ## Helper lemmas about the polling loop -/

theorem queryCount_pair (t : List PEvent) :
    queryCount (PEvent.sleep 10 :: PEvent.query :: t) = queryCount t + 1 := by
  simp [queryCount, List.filter]

theorem sleepsFirst_pair (t : List PEvent) :
    sleepsFirst (PEvent.sleep 10 :: PEvent.query :: t) = sleepsFirst t := rfl

theorem pollAux_sleepsFirst (stepSeq : Nat → Option PollOutcome) :
    ∀ k a, sleepsFirst (pollAux stepSeq a k).1 = true := by
  intro k
  induction k with
  | zero => intro a; rfl
  | succ k ih =>
    intro a
    cases h : stepSeq a with
    | some o => simp [pollAux, h]; rfl
    | none => simpa [pollAux, h, sleepsFirst_pair] using ih (a+1)

theorem pollAux_queryCount_le (stepSeq : Nat → Option PollOutcome) :
    ∀ k a, queryCount (pollAux stepSeq a k).1 ≤ k := by
  intro k
  induction k with
  | zero => intro a; simp [pollAux, queryCount]
  | succ k ih =>
    intro a
    cases h : stepSeq a with
    | some o => simp [pollAux, h, queryCount, List.filter]
    | none =>
      have := ih (a+1)
      simp only [pollAux, h]
      rw [queryCount_pair]
      omega

theorem pollAux_timeout_queryCount (stepSeq : Nat → Option PollOutcome)
    (hstep : ∀ n, stepSeq n ≠ some PollOutcome.timeout) :
    ∀ k a, (pollAux stepSeq a k).2 = PollOutcome.timeout →
      queryCount (pollAux stepSeq a k).1 = k := by
  intro k
  induction k with
  | zero => intro a _; simp [pollAux, queryCount]
  | succ k ih =>
    intro a h
    cases hs : stepSeq a with
    | some o =>
      simp only [pollAux, hs] at h
      exact absurd (hs.trans (by rw [h])) (hstep a)
    | none =>
      simp only [pollAux, hs] at h ⊢
      rw [queryCount_pair, ih (a+1) h]

theorem pollAux_allNone_timeout (stepSeq : Nat → Option PollOutcome)
    (hstep : ∀ n, stepSeq n = none) :
    ∀ k a, (pollAux stepSeq a k).2 = PollOutcome.timeout := by
  intro k
  induction k with
  | zero => intro a; rfl
  | succ k ih =>
    intro a
    simp only [pollAux, hstep a]
    exact ih (a+1)

theorem pollAux_break (stepSeq : Nat → Option PollOutcome) (k a : Nat)
    (o : PollOutcome) (h : stepSeq a = some o) :
    pollAux stepSeq a (k+1) = ([PEvent.sleep 10, PEvent.query], o) := by
  simp [pollAux, h]

theorem pollAux_continue (stepSeq : Nat → Option PollOutcome) (k a : Nat)
    (h : stepSeq a = none) :
    pollAux stepSeq a (k+1) =
      (PEvent.sleep 10 :: PEvent.query :: (pollAux stepSeq (a+1) k).1,
       (pollAux stepSeq (a+1) k).2) := by
  simp [pollAux, h]

theorem vstep_ne_timeout (r : VResp) : vstep r ≠ some PollOutcome.timeout := by
  cases r with
  | transport => simp [vstep]
  | resp code body =>
    simp only [vstep]
    split
    · simp
    · split
      · split <;> simp
      · split <;> simp

theorem lstep_ne_timeout (r : LResp) : lstep r ≠ some PollOutcome.timeout := by
  cases r with
  | transport => simp [lstep]
  | resp code body =>
    simp only [lstep]
    split
    · simp
    · split
      · split
        · split <;> simp
        · simp
      · simp

/-! ## Claim C1 -/

/-- Claim C1: for every poller run (video-clip generation and lip-sync),
the polling loop sleeps the poll interval first in each iteration and
then issues a status query; it performs at least one status query before
declaring timeout and never issues more than `max_attempts` status
queries (120 for video, 10 for lip-sync), for any sequence of status
responses, including transport errors on every attempt. -/
theorem poller_attempt_bounds (rsv : Nat → VResp) (rsl : Nat → LResp) :
    sleepsFirst (videoPoll rsv).1 = true ∧
    queryCount (videoPoll rsv).1 ≤ 120 ∧
    ((videoPoll rsv).2 = PollOutcome.timeout →
      1 ≤ queryCount (videoPoll rsv).1 ∧ queryCount (videoPoll rsv).1 = 120) ∧
    sleepsFirst (lipsyncPoll rsl).1 = true ∧
    queryCount (lipsyncPoll rsl).1 ≤ 10 ∧
    ((lipsyncPoll rsl).2 = PollOutcome.timeout →
      1 ≤ queryCount (lipsyncPoll rsl).1 ∧ queryCount (lipsyncPoll rsl).1 = 10) := by
  refine ⟨pollAux_sleepsFirst _ 120 0, pollAux_queryCount_le _ 120 0, ?_,
          pollAux_sleepsFirst _ 10 0, pollAux_queryCount_le _ 10 0, ?_⟩
  · intro h
    have hq : queryCount (videoPoll rsv).1 = 120 :=
      pollAux_timeout_queryCount (fun n => vstep (rsv n))
        (fun n => vstep_ne_timeout (rsv n)) 120 0 h
    exact ⟨by omega, hq⟩
  · intro h
    have hq : queryCount (lipsyncPoll rsl).1 = 10 :=
      pollAux_timeout_queryCount (fun n => lstep (rsl n))
        (fun n => lstep_ne_timeout (rsl n)) 10 0 h
    exact ⟨by omega, hq⟩

/-- Witness for C1: on a response sequence that never reaches a terminal
state, the video poller issues exactly 120 status queries and the
lip-sync poller exactly 10, each preceded by its sleep. -/
theorem poller_attempt_bounds_witness :
    queryCount (videoPoll (fun _ => VResp.resp 200 ⟨some "processing", none, none, none⟩)).1 = 120 ∧
    queryCount (lipsyncPoll (fun _ => LResp.resp 200 ⟨some "PROCESSING", none, none, none, none⟩)).1 = 10 ∧
    sleepsFirst (videoPoll (fun _ => VResp.resp 200 ⟨some "processing", none, none, none⟩)).1 = true := by
  have h := poller_attempt_bounds
    (fun _ => VResp.resp 200 ⟨some "processing", none, none, none⟩)
    (fun _ => LResp.resp 200 ⟨some "PROCESSING", none, none, none, none⟩)
  exact ⟨(h.2.2.1 (by decide)).2, (h.2.2.2.2.2 (by decide)).2, h.1⟩

/-! ## Claim C2 -/

/-- Response sequence of end-to-end scenario 3: status `"processing"` for
five polls, then `"completed"` with `output_url` set and `video_url`
absent. -/
def scenarioResponses : Nat → VResp := fun n =>
  if n < 5 then VResp.resp 200 ⟨some "processing", none, none, none⟩
  else VResp.resp 200 ⟨some "completed", none, some "https://cdn.example/clip.mp4", none⟩

/-- Claim C2: on a success terminal status the video poller extracts the
result reference trying `video_url` before `output_url`, first present
(truthy) value winning; and for the scenario-3 response sequence
(`"processing"` for 5 polls, then `"completed"` with `output_url` set and
`video_url` absent) the poller returns the `output_url` value after its
sixth status query. -/
theorem video_result_field_priority (u : String) (ou e : Option String) (hu : u ≠ "") :
    vstep (VResp.resp 200 ⟨some "completed", some u, ou, e⟩) = some (PollOutcome.success u) ∧
    vstep (VResp.resp 200 ⟨some "completed", none, some u, e⟩) = some (PollOutcome.success u) ∧
    (videoPoll scenarioResponses).2 = PollOutcome.success "https://cdn.example/clip.mp4" ∧
    queryCount (videoPoll scenarioResponses).1 = 6 := by
  refine ⟨?_, ?_, by decide, by decide⟩
  · simp [vstep, pyOr, truthy, hu]
  · simp [vstep, pyOr, truthy, hu]

/-- Witness for C2 at a concrete URL. -/
theorem video_result_field_priority_witness :
    vstep (VResp.resp 200 ⟨some "completed", some "https://a/v.mp4", some "https://b/o.mp4", none⟩) =
      some (PollOutcome.success "https://a/v.mp4") ∧
    vstep (VResp.resp 200 ⟨some "completed", none, some "https://a/v.mp4", none⟩) =
      some (PollOutcome.success "https://a/v.mp4") ∧
    (videoPoll scenarioResponses).2 = PollOutcome.success "https://cdn.example/clip.mp4" := by
  have h := video_result_field_priority "https://a/v.mp4" (some "https://b/o.mp4") none (by decide)
  have h2 := video_result_field_priority "https://a/v.mp4" none none (by decide)
  exact ⟨h.1, h2.2.1, h.2.2.1⟩

/-! ## Claim C3 -/

/-- Claim C3: every status whose uppercasing is FAILED, REJECTED,
CANCELLED or ERROR (i.e. every casing of those tokens) is classified by
the lip-sync poller as a terminal failure carrying the upstream `error`
message, and the video poller classifies the statuses `"failed"` and
`"error"` as terminal failures carrying the upstream error message; in
both cases the poll run ends in that classified failure outcome rather
than escaping classification. -/
theorem poller_terminal_failure_vocab (s m : String)
    (o1 o2 o3 vu ou : Option String) (rsl : Nat → LResp) (rsv : Nat → VResp)
    (hs : pyUpper s = "FAILED" ∨ pyUpper s = "REJECTED" ∨
          pyUpper s = "CANCELLED" ∨ pyUpper s = "ERROR") :
    lstep (LResp.resp 200 ⟨some s, o1, o2, o3, some m⟩) = some (PollOutcome.failed m) ∧
    vstep (VResp.resp 200 ⟨some "failed", vu, ou, some m⟩) =
      some (PollOutcome.failed ("Video generation failed: " ++ m)) ∧
    vstep (VResp.resp 200 ⟨some "error", vu, ou, some m⟩) =
      some (PollOutcome.failed ("Video generation failed: " ++ m)) ∧
    (rsl 0 = LResp.resp 200 ⟨some s, o1, o2, o3, some m⟩ →
      (lipsyncPoll rsl).2 = PollOutcome.failed m) ∧
    (rsv 0 = VResp.resp 200 ⟨some "failed", vu, ou, some m⟩ →
      (videoPoll rsv).2 = PollOutcome.failed ("Video generation failed: " ++ m)) := by
  have hl : lstep (LResp.resp 200 ⟨some s, o1, o2, o3, some m⟩) = some (PollOutcome.failed m) := by
    rcases hs with h | h | h | h <;>
      simp [lstep, h]
  have hv : vstep (VResp.resp 200 ⟨some "failed", vu, ou, some m⟩) =
      some (PollOutcome.failed ("Video generation failed: " ++ m)) := by
    simp [vstep]
  have hv2 : vstep (VResp.resp 200 ⟨some "error", vu, ou, some m⟩) =
      some (PollOutcome.failed ("Video generation failed: " ++ m)) := by
    simp [vstep]
  refine ⟨hl, hv, hv2, ?_, ?_⟩
  · intro h0
    have hb := pollAux_break (fun n => lstep (rsl n)) 9 0 (PollOutcome.failed m)
      (by show lstep (rsl 0) = _; rw [h0]; exact hl)
    exact congrArg Prod.snd hb
  · intro h0
    have hb := pollAux_break (fun n => vstep (rsv n)) 119 0
      (PollOutcome.failed ("Video generation failed: " ++ m))
      (by show vstep (rsv 0) = _; rw [h0]; exact hv)
    exact congrArg Prod.snd hb

/-- Witness for C3 at a mixed-casing lip-sync status and concrete
messages. -/
theorem poller_terminal_failure_vocab_witness :
    lstep (LResp.resp 200 ⟨some "ReJeCtEd", none, none, none, some "bad input"⟩) =
      some (PollOutcome.failed "bad input") ∧
    vstep (VResp.resp 200 ⟨some "failed", none, none, some "gpu oom"⟩) =
      some (PollOutcome.failed ("Video generation failed: " ++ "gpu oom")) ∧
    (lipsyncPoll (fun _ => LResp.resp 200 ⟨some "ReJeCtEd", none, none, none, some "bad input"⟩)).2 =
      PollOutcome.failed "bad input" := by
  have h := poller_terminal_failure_vocab "ReJeCtEd" "bad input" none none none none none
    (fun _ => LResp.resp 200 ⟨some "ReJeCtEd", none, none, none, some "bad input"⟩)
    (fun _ => VResp.resp 200 ⟨some "failed", none, none, some "gpu oom"⟩)
    (Or.inr (Or.inl (by decide)))
  have h2 := poller_terminal_failure_vocab "FAILED" "gpu oom" none none none none none
    (fun _ => LResp.resp 200 ⟨some "FAILED", none, none, none, some "gpu oom"⟩)
    (fun _ => VResp.resp 200 ⟨some "failed", none, none, some "gpu oom"⟩)
    (Or.inl (by decide))
  exact ⟨h.1, h2.2.1, h.2.2.2.1 rfl⟩

/-! ## Claim C4 -/

/-- Claim C4: for every measured audio duration `d > 0` the pipeline
requests `⌈d / 7⌉` clips (the per-unit clip length is the constant 7);
a measured duration of 22.4 seconds yields exactly 4 clips, and an exact
positive multiple `k * 7` yields exactly `k` clips. -/
theorem required_clips_ceil (d : ℚ) (hd : 0 < d) (k : ℕ) (hk : 0 < k) :
    required_clips d = ⌈d / 7⌉ ∧
    required_clips (224/10) = 4 ∧
    required_clips (7 * (k : ℚ)) = (k : ℤ) := by
  refine ⟨rfl, ?_, ?_⟩
  · norm_num [required_clips, CLIP_DURATION]
    rw [Int.ceil_eq_iff]
    norm_num
  · simp only [required_clips, CLIP_DURATION]
    rw [mul_div_cancel_left₀ _ (by norm_num : (7:ℚ) ≠ 0)]
    exact Int.ceil_natCast k

/-- Witness for C4 at duration 22.4 and multiple 3 × 7. -/
theorem required_clips_ceil_witness :
    (0:ℚ) < 224/10 ∧ 0 < 3 ∧
    required_clips (224/10) = 4 ∧
    required_clips (7 * ((3:ℕ) : ℚ)) = ((3:ℕ) : ℤ) := by
  have h := required_clips_ceil (224/10) (by norm_num) 3 (by norm_num)
  exact ⟨by norm_num, by norm_num, h.2.1, h.2.2⟩

/-! ## Claim C5 -/

/-- Claim C5: for every clip count `N ≥ 2` and every segment list whose
first element is the intro, second is the body and last is the outro,
clip index 0 selects the intro, index `N-1` selects the outro, every
index strictly between selects the single body segment, and for `N = 3`
the indices map to intro, body, outro. -/
theorem select_segment_mapping {α : Type} (N : Nat) (segments : List α)
    (sIntro sBody sOutro : α) (i : Nat) (hN : 2 ≤ N)
    (h0 : segments[0]? = some sIntro) (h1 : segments[1]? = some sBody)
    (hl : segments.getLast? = some sOutro) :
    select_segment segments N 0 = some sIntro ∧
    select_segment segments N (N-1) = some sOutro ∧
    (0 < i → i < N - 1 → select_segment segments N i = some sBody) ∧
    (List.range 3).map (select_segment [sIntro, sBody, sOutro] 3) =
      [some sIntro, some sBody, some sOutro] := by
  refine ⟨by simp [select_segment, h0], ?_, ?_, ?_⟩
  · have hne : N - 1 ≠ 0 := by omega
    simp [select_segment, hne, hl]
  · intro hi hiN
    have hne : i ≠ 0 := by omega
    have hne2 : i ≠ N - 1 := by omega
    simp [select_segment, hne, hne2, h1]
  · rfl

/-- Witness for C5 with a concrete three-segment list and N = 3. -/
theorem select_segment_mapping_witness :
    select_segment ["intro seg", "body seg", "outro seg"] 3 0 = some "intro seg" ∧
    select_segment ["intro seg", "body seg", "outro seg"] 3 2 = some "outro seg" ∧
    select_segment ["intro seg", "body seg", "outro seg"] 3 1 = some "body seg" := by
  have h := select_segment_mapping 3 ["intro seg", "body seg", "outro seg"]
    "intro seg" "body seg" "outro seg" 1 (by omega) rfl rfl rfl
  exact ⟨h.1, h.2.1, h.2.2.1 (by omega) (by omega)⟩

/-! ## Helper lemmas about the sequencer -/

/-- Whether a write list consists solely of progress-text updates. -/
def onlyProgress : List Event → Bool
  | [] => true
  | Event.setProgress _ :: t => onlyProgress t
  | _ => false

theorem clipsLoopAux_onlyProgress (clipRes : Nat → StageResult) (N : Nat) :
    ∀ k i, onlyProgress (clipsLoopAux clipRes N i k).1 = true := by
  intro k
  induction k with
  | zero => intro i; rfl
  | succ k ih =>
    intro i
    cases h : clipRes i with
    | err m => simp [clipsLoopAux, h]; rfl
    | ok p =>
      simp only [clipsLoopAux, h]
      exact ih (i+1)

theorem onlyProgress_statusOf (evs : List Event) (h : onlyProgress evs = true) :
    evs.filterMap statusOf = [] := by
  induction evs with
  | nil => rfl
  | cons e t ih =>
    cases e with
    | setProgress p =>
      simp only [List.filterMap_cons, statusOf]
      exact ih h
    | setStatus s => simp [onlyProgress] at h
    | setResult r => simp [onlyProgress] at h
    | setError e => simp [onlyProgress] at h

theorem foldl_onlyProgress (evs : List Event) (h : onlyProgress evs = true) :
    ∀ r : JobRecord,
      (evs.foldl applyEvent r).status = r.status ∧
      (evs.foldl applyEvent r).result = r.result ∧
      (evs.foldl applyEvent r).error = r.error := by
  induction evs with
  | nil => intro r; exact ⟨rfl, rfl, rfl⟩
  | cons e t ih =>
    intro r
    cases e with
    | setProgress p => exact ih h _
    | setStatus s => simp [onlyProgress] at h
    | setResult res => simp [onlyProgress] at h
    | setError er => simp [onlyProgress] at h

theorem map_clip_shift (i n : Nat) :
    Call.clip i :: (List.range n).map (fun t => Call.clip (i + 1 + t)) =
      (List.range (n+1)).map (fun t => Call.clip (i + t)) := by
  rw [List.range_succ_eq_map, List.map_cons, List.map_map]
  congr 1
  simp
  intro a ha
  omega

theorem clipsLoopAux_ok (clipRes : Nat → StageResult) (N : Nat) :
    ∀ k i, (∀ t, t < k → ∃ p, clipRes (i + t) = StageResult.ok p) →
      (clipsLoopAux clipRes N i k).2.1 = (List.range k).map (fun t => Call.clip (i + t)) ∧
      ∃ ps, (clipsLoopAux clipRes N i k).2.2 = Except.ok ps ∧ ps.length = k := by
  intro k
  induction k with
  | zero => intro i _; exact ⟨rfl, [], rfl, rfl⟩
  | succ k ih =>
    intro i h
    obtain ⟨p, hp⟩ := h 0 (by omega)
    rw [Nat.add_zero] at hp
    have hrest : ∀ t, t < k → ∃ q, clipRes (i + 1 + t) = StageResult.ok q := by
      intro t ht
      obtain ⟨q, hq⟩ := h (t+1) (by omega)
      exact ⟨q, by rw [show i + 1 + t = i + (t + 1) by omega]; exact hq⟩
    obtain ⟨hcalls, ps, hps, hlen⟩ := ih (i+1) hrest
    simp only [clipsLoopAux, hp]
    refine ⟨?_, p :: ps, by rw [hps], by simp [hlen]⟩
    rw [hcalls]
    exact map_clip_shift i k

theorem clipsLoopAux_err (clipRes : Nat → StageResult) (N : Nat) (m : String) :
    ∀ k i t0, t0 < k →
      (∀ t, t < t0 → ∃ p, clipRes (i + t) = StageResult.ok p) →
      clipRes (i + t0) = StageResult.err m →
      (clipsLoopAux clipRes N i k).2.1 =
        (List.range (t0+1)).map (fun t => Call.clip (i + t)) ∧
      (clipsLoopAux clipRes N i k).2.2 = Except.error m := by
  intro k
  induction k with
  | zero => intro i t0 ht0; omega
  | succ k ih =>
    intro i t0 ht0 hok herr
    cases t0 with
    | zero =>
      rw [Nat.add_zero] at herr
      simp [clipsLoopAux, herr, List.range_succ]
    | succ s =>
      obtain ⟨p, hp⟩ := hok 0 (by omega)
      rw [Nat.add_zero] at hp
      have hok2 : ∀ t, t < s → ∃ q, clipRes (i + 1 + t) = StageResult.ok q := by
        intro t ht
        obtain ⟨q, hq⟩ := hok (t+1) (by omega)
        exact ⟨q, by rw [show i + 1 + t = i + (t + 1) by omega]; exact hq⟩
      have herr2 : clipRes (i + 1 + s) = StageResult.err m := by
        rw [show i + 1 + s = i + (s + 1) by omega]; exact herr
      obtain ⟨hcalls, hres⟩ := ih (i+1) s (by omega) hok2 herr2
      simp only [clipsLoopAux, hp]
      refine ⟨?_, by rw [hres]⟩
      rw [hcalls]
      exact map_clip_shift i (s+1)

/-! ## Claim C6 -/

/-- Claim C6: whatever stage raises first (a clip generation, the
assembly call, or the lip-sync call), the sequencer catches the
exception and the job record ends with `status = "failed"` and `error`
equal to the exception's message (never silently swallowed, and no
success result); the stage calls actually issued stop at the failing
stage — no later stage is attempted and no stage appears twice. -/
theorem sequencer_stage_failure_terminal (N i : Nat) (clipRes : Nat → StageResult)
    (asmRes lipRes : StageResult) (d : ℚ) (id m : String) :
    ((∀ j, j < i → ∃ p, clipRes j = StageResult.ok p) → i < N →
      clipRes i = StageResult.err m →
      (jobAfter id (run_video_production N clipRes asmRes lipRes d).1).status = "failed" ∧
      (jobAfter id (run_video_production N clipRes asmRes lipRes d).1).error = some m ∧
      (jobAfter id (run_video_production N clipRes asmRes lipRes d).1).result = none ∧
      (run_video_production N clipRes asmRes lipRes d).2 = (List.range (i+1)).map Call.clip) ∧
    ((∀ j, j < N → ∃ p, clipRes j = StageResult.ok p) → asmRes = StageResult.err m →
      (jobAfter id (run_video_production N clipRes asmRes lipRes d).1).status = "failed" ∧
      (jobAfter id (run_video_production N clipRes asmRes lipRes d).1).error = some m ∧
      (jobAfter id (run_video_production N clipRes asmRes lipRes d).1).result = none ∧
      (run_video_production N clipRes asmRes lipRes d).2 =
        (List.range N).map Call.clip ++ [Call.assembly]) ∧
    ((∀ j, j < N → ∃ p, clipRes j = StageResult.ok p) →
      (∃ q, asmRes = StageResult.ok q) → lipRes = StageResult.err m →
      (jobAfter id (run_video_production N clipRes asmRes lipRes d).1).status = "failed" ∧
      (jobAfter id (run_video_production N clipRes asmRes lipRes d).1).error = some m ∧
      (jobAfter id (run_video_production N clipRes asmRes lipRes d).1).result = none ∧
      (run_video_production N clipRes asmRes lipRes d).2 =
        (List.range N).map Call.clip ++ [Call.assembly, Call.lipsync]) := by
  have hop := clipsLoopAux_onlyProgress clipRes N N 0
  refine ⟨?_, ?_, ?_⟩
  · intro hok hiN herr
    have h0 : ∀ t, t < i → ∃ p, clipRes (0 + t) = StageResult.ok p := by
      intro t ht
      simpa using hok t ht
    have herr0 : clipRes (0 + i) = StageResult.err m := by simpa using herr
    obtain ⟨hcalls, hres⟩ := clipsLoopAux_err clipRes N m N 0 i hiN h0 herr0
    simp only [run_video_production, hres]
    refine ⟨by simp [jobAfter, List.foldl_append, applyEvent],
            by simp [jobAfter, List.foldl_append, applyEvent], ?_, ?_⟩
    · simp only [jobAfter, List.foldl_append, List.foldl_cons, List.foldl_nil, applyEvent]
      rw [(foldl_onlyProgress _ hop _).2.1]
      rfl
    · rw [hcalls]
      simp
  · intro hok herr
    have h0 : ∀ t, t < N → ∃ p, clipRes (0 + t) = StageResult.ok p := by
      intro t ht
      simpa using hok t ht
    obtain ⟨hcalls, ps, hres, hlen⟩ := clipsLoopAux_ok clipRes N N 0 h0
    subst herr
    simp only [run_video_production, hres]
    refine ⟨by simp [jobAfter, List.foldl_append, applyEvent, asmHead],
            by simp [jobAfter, List.foldl_append, applyEvent, asmHead], ?_, ?_⟩
    · simp only [jobAfter, List.foldl_append, List.foldl_cons, List.foldl_nil, applyEvent,
        asmHead]
      rw [(foldl_onlyProgress _ hop _).2.1]
      rfl
    · rw [hcalls]
      simp
  · intro hok hasm herr
    have h0 : ∀ t, t < N → ∃ p, clipRes (0 + t) = StageResult.ok p := by
      intro t ht
      simpa using hok t ht
    obtain ⟨hcalls, ps, hres, hlen⟩ := clipsLoopAux_ok clipRes N N 0 h0
    obtain ⟨q, hq⟩ := hasm
    subst hq
    subst herr
    simp only [run_video_production, hres]
    refine ⟨by simp [jobAfter, List.foldl_append, applyEvent, asmHead, lipHead],
            by simp [jobAfter, List.foldl_append, applyEvent, asmHead, lipHead], ?_, ?_⟩
    · simp only [jobAfter, List.foldl_append, List.foldl_cons, List.foldl_nil, applyEvent,
        asmHead, lipHead]
      rw [(foldl_onlyProgress _ hop _).2.1]
      rfl
    · rw [hcalls]
      simp

/-- Witness for C6: two clips requested, the second clip call raises
"boom"; the job ends failed with that message and neither assembly nor
lip-sync is attempted. -/
theorem sequencer_stage_failure_terminal_witness :
    (jobAfter "job-1" (run_video_production 2
        (fun j => if j = 0 then StageResult.ok "c0" else StageResult.err "boom")
        (StageResult.ok "asm") (StageResult.ok "lip") 7).1).status = "failed" ∧
    (jobAfter "job-1" (run_video_production 2
        (fun j => if j = 0 then StageResult.ok "c0" else StageResult.err "boom")
        (StageResult.ok "asm") (StageResult.ok "lip") 7).1).error = some "boom" ∧
    (run_video_production 2
        (fun j => if j = 0 then StageResult.ok "c0" else StageResult.err "boom")
        (StageResult.ok "asm") (StageResult.ok "lip") 7).2 = [Call.clip 0, Call.clip 1] := by
  have h := sequencer_stage_failure_terminal 2 1
    (fun j => if j = 0 then StageResult.ok "c0" else StageResult.err "boom")
    (StageResult.ok "asm") (StageResult.ok "lip") 7 "job-1" "boom"
  have h1 := h.1
    (by
      intro j hj
      have hj0 : j = 0 := by omega
      subst hj0
      exact ⟨"c0", rfl⟩)
    (by omega) rfl
  refine ⟨h1.1, h1.2.1, ?_⟩
  rw [h1.2.2.2]
  decide

/-! ## Claim C7 -/

/-- Whether a write list never sets a terminal status. -/
def noTerminalWrite : List Event → Bool
  | [] => true
  | Event.setStatus s :: t => !isTerminal s && noTerminalWrite t
  | _ :: t => noTerminalWrite t

theorem tailAfterTerminal_append (l1 l2 : List Event) (h : noTerminalWrite l1 = true) :
    tailAfterTerminal (l1 ++ l2) = tailAfterTerminal l2 := by
  induction l1 with
  | nil => rfl
  | cons e t ih =>
    cases e with
    | setStatus s =>
      simp only [noTerminalWrite, Bool.and_eq_true, Bool.not_eq_true'] at h
      simp only [List.cons_append, tailAfterTerminal, h.1]
      simpa using ih h.2
    | setProgress p => simpa [tailAfterTerminal] using ih h
    | setResult r => simpa [tailAfterTerminal] using ih h
    | setError e => simpa [tailAfterTerminal] using ih h

theorem onlyProgress_noTerminalWrite (evs : List Event) (h : onlyProgress evs = true) :
    noTerminalWrite evs = true := by
  induction evs with
  | nil => rfl
  | cons e t ih =>
    cases e with
    | setProgress p =>
      simp only [noTerminalWrite]
      exact ih h
    | setStatus s => simp [onlyProgress] at h
    | setResult r => simp [onlyProgress] at h
    | setError e => simp [onlyProgress] at h

/-- Claim C7 (amended): a job's status sequence is monotone through the
documented stage order `started → generating_videos → assembling →
lipsyncing` into a terminal `completed`/`failed` state, never regressing
and with no status value following a terminal one; the only record
writes after the terminal status write are the same terminal
transition's accompanying writes (at most two: the final progress text
and the result on success, or the error message on failure), none of
which changes the status. -/
theorem job_status_monotone (N : Nat) (clipRes : Nat → StageResult)
    (asmRes lipRes : StageResult) (d : ℚ) (tl : List Event) :
    monotoneStatuses (statusTrace (run_video_production N clipRes asmRes lipRes d).1) = true ∧
    (tailAfterTerminal (run_video_production N clipRes asmRes lipRes d).1 = some tl →
      tl.filterMap statusOf = [] ∧ tl.length ≤ 2) := by
  have hop := clipsLoopAux_onlyProgress clipRes N N 0
  have hst := onlyProgress_statusOf _ hop
  have hnt := onlyProgress_noTerminalWrite _ hop
  rcases hres : (clipsLoopAux clipRes N 0 N).2.2 with m | ps
  · constructor
    · simp only [run_video_production, hres, statusTrace, List.filterMap_append, hst,
        prodHead, List.filterMap_cons, statusOf, List.filterMap_nil]
      decide
    · intro h
      simp only [run_video_production, hres, List.append_assoc] at h
      rw [tailAfterTerminal_append prodHead _ (by decide),
          tailAfterTerminal_append _ _ hnt] at h
      simp [tailAfterTerminal, isTerminal] at h
      subst h
      exact ⟨by simp [statusOf], by simp⟩
  · rcases asmRes with p | m2
    · rcases lipRes with p2 | m3
      · constructor
        · simp only [run_video_production, hres, statusTrace, List.filterMap_append, hst,
            prodHead, asmHead, lipHead, List.filterMap_cons, statusOf, List.filterMap_nil]
          decide
        · intro h
          simp only [run_video_production, hres, List.append_assoc] at h
          rw [tailAfterTerminal_append prodHead _ (by decide),
              tailAfterTerminal_append _ _ hnt,
              tailAfterTerminal_append asmHead _ (by decide),
              tailAfterTerminal_append lipHead _ (by decide)] at h
          simp [tailAfterTerminal, isTerminal] at h
          subst h
          exact ⟨by simp [statusOf], by simp⟩
      · constructor
        · simp only [run_video_production, hres, statusTrace, List.filterMap_append, hst,
            prodHead, asmHead, lipHead, List.filterMap_cons, statusOf, List.filterMap_nil]
          decide
        · intro h
          simp only [run_video_production, hres, List.append_assoc] at h
          rw [tailAfterTerminal_append prodHead _ (by decide),
              tailAfterTerminal_append _ _ hnt,
              tailAfterTerminal_append asmHead _ (by decide),
              tailAfterTerminal_append lipHead _ (by decide)] at h
          simp [tailAfterTerminal, isTerminal] at h
          subst h
          exact ⟨by simp [statusOf], by simp⟩
    · constructor
      · simp only [run_video_production, hres, statusTrace, List.filterMap_append, hst,
          prodHead, asmHead, List.filterMap_cons, statusOf, List.filterMap_nil]
        decide
      · intro h
        simp only [run_video_production, hres, List.append_assoc] at h
        rw [tailAfterTerminal_append prodHead _ (by decide),
            tailAfterTerminal_append _ _ hnt,
            tailAfterTerminal_append asmHead _ (by decide)] at h
        simp [tailAfterTerminal, isTerminal] at h
        subst h
        exact ⟨by simp [statusOf], by simp⟩

/-- Counterexample for C7 as stated: in a fully successful run the
sequencer still mutates the job record after the write that sets
`status = "completed"` — the final progress text and the result summary
are written afterwards (main.py lines 296-302), so the record is not
"no longer mutated" once the status field holds a terminal value.  The
second conjunct exhibits the two writes that follow the terminal status
write. -/
theorem job_record_mutated_after_terminal :
    mutatedAfterTerminal (run_video_production 1 (fun _ => StageResult.ok "clip")
      (StageResult.ok "asm") (StageResult.ok "final") 7).1 = true ∧
    tailAfterTerminal (run_video_production 1 (fun _ => StageResult.ok "clip")
      (StageResult.ok "asm") (StageResult.ok "final") 7).1 =
      some [Event.setProgress "Video production complete!",
            Event.setResult ⟨"final", 7, 1⟩] := by
  constructor
  · rfl
  · rfl

/-- Witness for C7 (amended) at a concrete one-clip run. -/
theorem job_status_monotone_witness :
    monotoneStatuses (statusTrace (run_video_production 1 (fun _ => StageResult.ok "c")
      (StageResult.ok "a") (StageResult.err "lip broke") 7).1) = true ∧
    List.filterMap statusOf [Event.setError "lip broke"] = [] := by
  have h := job_status_monotone 1 (fun _ => StageResult.ok "c")
    (StageResult.ok "a") (StageResult.err "lip broke") 7 [Event.setError "lip broke"]
  exact ⟨h.1, (h.2 (by rfl)).1⟩

/-! ## Claim C8 -/

/-- Counterexample for C8 as stated: the record stored by
`start_production` at submission has status `"started"` (main.py line
324), not `"created"`. -/
theorem start_production_status_not_created :
    ((start_production (fun _ => none) "job-1").1 "job-1").map JobRecord.status =
      some "started" ∧
    ¬ ((start_production (fun _ => none) "job-1").1 "job-1").map JobRecord.status =
      some "created" := by
  constructor
  · rfl
  · intro h
    simp [start_production, initJobRecord] at h

/-- Claim C8 (amended): every job record is created at submission time
with status `"started"` (not `"created"`), with result and error both
unset, and submission returns the new job identifier immediately; a
submission under a fresh identifier leaves every other identifier's
record untouched, so no two jobs share a record. -/
theorem start_production_record (jobs : String → Option JobRecord) (id k : String)
    (hk : k ≠ id) :
    (start_production jobs id).2 = id ∧
    (start_production jobs id).1 id = some (initJobRecord id) ∧
    (initJobRecord id).status = "started" ∧
    (initJobRecord id).result = none ∧
    (initJobRecord id).error = none ∧
    (start_production jobs id).1 k = jobs k := by
  exact ⟨rfl, by simp [start_production], rfl, rfl, rfl, by simp [start_production, hk]⟩

/-- Witness for C8 (amended) at concrete identifiers. -/
theorem start_production_record_witness :
    ("job-b" : String) ≠ "job-a" ∧
    (start_production (fun _ => none) "job-a").2 = "job-a" ∧
    (start_production (fun _ => none) "job-a").1 "job-a" = some (initJobRecord "job-a") ∧
    (start_production (fun _ => none) "job-a").1 "job-b" = none := by
  have h := start_production_record (fun _ => none) "job-a" "job-b" (by decide)
  exact ⟨by decide, h.1, h.2.1, h.2.2.2.2.2⟩

/-! ## Claim C9 -/

/-- Counterexample for C9 as stated: with every clip present on disk but
the audio file absent, `assemble_video_tool` performs the concatenation
invocation of the media assembler first and only then fails on the audio
existence check (tools.py checks the audio at line 323, after the
concatenation at lines 304-316) — so a missing audio input does not fail
before every assembler invocation. -/
theorem assemble_audio_checked_after_concat :
    (fun p => !(p == "temp_assets/full_audio.mp3")) "temp_assets/full_audio.mp3" = false ∧
    (assemble_video_tool (fun p => !(p == "temp_assets/full_audio.mp3"))
        ["temp_assets/clip_01.mp4"] "temp_assets/full_audio.mp3"
        (Except.ok ()) (Except.ok ())).1 = [AsmCall.concat] ∧
    ¬ (assemble_video_tool (fun p => !(p == "temp_assets/full_audio.mp3"))
        ["temp_assets/clip_01.mp4"] "temp_assets/full_audio.mp3"
        (Except.ok ()) (Except.ok ())).1 = [] ∧
    (assemble_video_tool (fun p => !(p == "temp_assets/full_audio.mp3"))
        ["temp_assets/clip_01.mp4"] "temp_assets/full_audio.mp3"
        (Except.ok ()) (Except.ok ())).2 =
      Except.error "Audio file not found: temp_assets/full_audio.mp3" := by
  refine ⟨rfl, rfl, ?_⟩
  refine ⟨by decide, rfl⟩

/-- Claim C9 (amended): every referenced clip path is existence-checked
before any assembler invocation and a missing clip fails with the
missing-input error with no assembler call made; the audio path is also
existence-checked and a missing audio file fails with its missing-input
error before the audio-merge invocation, but only after the
concatenation invocation has run. -/
theorem assemble_missing_input_checks (fs : String → Bool) (clips : List String)
    (audio p : String) (cres mres : Except String Unit) :
    (clips.find? (fun q => !fs q) = some p →
      assemble_video_tool fs clips audio cres mres =
        ([], Except.error ("Clip not found: " ++ p))) ∧
    ((∀ q ∈ clips, fs q = true) → fs audio = false →
      (assemble_video_tool fs clips audio (Except.ok ()) mres).1 = [AsmCall.concat] ∧
      (assemble_video_tool fs clips audio (Except.ok ()) mres).2 =
        Except.error ("Audio file not found: " ++ audio)) := by
  constructor
  · intro h
    simp [assemble_video_tool, h]
  · intro hclips haudio
    have hnone : clips.find? (fun q => !fs q) = none := by
      rw [List.find?_eq_none]
      intro x hx
      simp [hclips x hx]
    constructor
    · simp [assemble_video_tool, hnone, haudio]
    · simp [assemble_video_tool, hnone, haudio]

/-- Witness for C9 (amended): a missing clip fails with no assembler
call, and a missing audio file fails after only the concatenation call. -/
theorem assemble_missing_input_checks_witness :
    assemble_video_tool (fun _ => false) ["c1.mp4"] "a.mp3"
        (Except.ok ()) (Except.ok ()) = ([], Except.error ("Clip not found: " ++ "c1.mp4")) ∧
    (assemble_video_tool (fun p => !(p == "a.mp3")) ["c1.mp4"] "a.mp3"
        (Except.ok ()) (Except.ok ())).1 = [AsmCall.concat] ∧
    (assemble_video_tool (fun p => !(p == "a.mp3")) ["c1.mp4"] "a.mp3"
        (Except.ok ()) (Except.ok ())).2 = Except.error ("Audio file not found: " ++ "a.mp3") := by
  have h1 := assemble_missing_input_checks (fun _ => false) ["c1.mp4"] "a.mp3" "c1.mp4"
    (Except.ok ()) (Except.ok ())
  have h2 := assemble_missing_input_checks (fun p => !(p == "a.mp3")) ["c1.mp4"] "a.mp3" "c1.mp4"
    (Except.ok ()) (Except.ok ())
  have hb := h2.2 (by decide) (by decide)
  exact ⟨h1.1 (by decide), hb.1, hb.2⟩

/-! ## Claim C10 -/

/-- Claim C10: in both pollers, a success terminal status whose response
carries none of the recognized result-field names (truthy-valued) does
not terminate polling — the iteration's decision is to continue, and the
loop proceeds to the next attempt; when no attempt ever yields a result
reference, the tool call fails with the timeout error, for every
download behaviour (so no success and no download error). -/
theorem success_without_result_reference
    (vu ou e o1 o2 o3 le : Option String)
    (stepSeq : Nat → Option PollOutcome) (a k : Nat)
    (rsv : Nat → VResp) (rsl : Nat → LResp)
    (dl : String → Except String String) (ci : Nat) :
    (truthy (pyOr vu ou) = false →
      vstep (VResp.resp 200 ⟨some "completed", vu, ou, e⟩) = none ∧
      vstep (VResp.resp 200 ⟨some "complete", vu, ou, e⟩) = none) ∧
    (truthy (pyOr (pyOr o1 o2) o3) = false →
      lstep (LResp.resp 200 ⟨some "COMPLETED", o1, o2, o3, le⟩) = none ∧
      lstep (LResp.resp 200 ⟨some "COMPLETE", o1, o2, o3, le⟩) = none) ∧
    (stepSeq a = none →
      pollAux stepSeq a (k+1) =
        (PEvent.sleep 10 :: PEvent.query :: (pollAux stepSeq (a+1) k).1,
         (pollAux stepSeq (a+1) k).2)) ∧
    ((∀ n, vstep (rsv n) = none) →
      generate_video_clip_tool rsv dl ci =
        Except.error ("Video generation timeout for clip " ++ toString ci)) ∧
    ((∀ n, lstep (rsl n) = none) →
      apply_lip_sync_tool rsl dl =
        Except.error "Lipsync timeout - job did not complete in time") := by
  refine ⟨?_, ?_, pollAux_continue stepSeq k a, ?_, ?_⟩
  · intro h
    constructor <;> simp [vstep, h]
  · intro h
    have hu1 : pyUpper "COMPLETED" = "COMPLETED" := by decide
    have hu2 : pyUpper "COMPLETE" = "COMPLETE" := by decide
    constructor <;> simp [lstep, h, hu1, hu2]
  · intro h
    have ht : (videoPoll rsv).2 = PollOutcome.timeout :=
      pollAux_allNone_timeout (fun n => vstep (rsv n)) h 120 0
    simp [generate_video_clip_tool, ht]
  · intro h
    have ht : (lipsyncPoll rsl).2 = PollOutcome.timeout :=
      pollAux_allNone_timeout (fun n => lstep (rsl n)) h 10 0
    simp [apply_lip_sync_tool, ht]

/-- Witness for C10: responses that always report `"completed"` (resp.
`"COMPLETED"`) with no result field make the tools fail with the timeout
errors. -/
theorem success_without_result_reference_witness :
    vstep (VResp.resp 200 ⟨some "completed", none, none, none⟩) = none ∧
    generate_video_clip_tool (fun _ => VResp.resp 200 ⟨some "completed", none, none, none⟩)
        (fun u => Except.ok u) 3 =
      Except.error ("Video generation timeout for clip " ++ toString 3) ∧
    apply_lip_sync_tool (fun _ => LResp.resp 200 ⟨some "COMPLETED", none, none, none, none⟩)
        (fun u => Except.ok u) =
      Except.error "Lipsync timeout - job did not complete in time" := by
  have h := success_without_result_reference none none none none none none none
    (fun _ => none) 0 0
    (fun _ => VResp.resp 200 ⟨some "completed", none, none, none⟩)
    (fun _ => LResp.resp 200 ⟨some "COMPLETED", none, none, none, none⟩)
    (fun u => Except.ok u) 3
  refine ⟨(h.1 (by decide)).1, ?_, ?_⟩
  · exact h.2.2.2.1 (fun n => (h.1 (by decide)).1)
  · exact h.2.2.2.2 (fun n => (h.2.1 (by decide)).1)
